import Mathlib

/-!
Verification development for the state-machines repository.

The Rust core under src/ is shallowly embedded here:
- src/src/ids.rs        : NodeId / StateId with deferred regex validation
- src/src/state_charts.rs : chart model (values, guards, transitions, ...)
- src/src/node.rs       : Node and its construction from validated input
- src/src/state_machine.rs : StateMachine instantiation

Rust Result is embedded as Except, machine strings as Lean String
(logically a list of Char).  The uuid crate's Uuid::new_v4 is a
nondeterministic input; it is modelled as an explicit String argument
of the operations that mint one.  The Unicode character classes of the
regexes in ids.rs are modelled over their ASCII core (Char.isAlpha,
Char.isDigit); every identifier appearing in the repository's charts
and tests is ASCII.
-/

/-- Character class of the regex token w in ids.rs (letters, digits, underscore). -/
def isWordChar (c : Char) : Bool := c.isAlpha || c.isDigit || c == '_'

/-- Characters allowed after the first character of a path segment: word
characters plus dot and hyphen (the bracket class of the ids.rs regexes). -/
def isSegChar (c : Char) : Bool := isWordChar c || c == '.' || c == '-'

/-- Splits a character list at every '/' separator, keeping empty parts, so
that the segment structure of the anchored path regexes can be checked
segment by segment. -/
def splitSlash : List Char → List (List Char)
  | [] => [[]]
  | c :: cs =>
    if c = '/' then [] :: splitSlash cs
    else
      match splitSlash cs with
      | [] => [[c]]
      | p :: ps => (c :: p) :: ps

/-- First segment of a NodeId path: a letter followed by segment characters
(the regex piece starting the path group of NodeId::REGEX). -/
def firstSegOk : List Char → Bool
  | [] => false
  | c :: cs => c.isAlpha && cs.all isSegChar

/-- Later path segments (and every StateId segment): a word character
followed by segment characters. -/
def segOk : List Char → Bool
  | [] => false
  | c :: cs => isWordChar c && cs.all isSegChar

/-- Embedding of the path group of NodeId::REGEX from src/src/ids.rs: a
letter-initial first segment, then any number of word-initial segments,
separated by '/'. -/
def nodePathOk (l : List Char) : Bool :=
  match splitSlash l with
  | [] => false
  | s :: rest => firstSegOk s && rest.all segOk

/-- The seven characters the NodeId regex anchors at the front. -/
def scnHead : List Char := ['s', 'c', 'n', ':', '/', '/', '/']

/-- The seven characters the StateId regex anchors at the front. -/
def smsHead : List Char := ['s', 'm', 's', ':', '/', '/', '/']

/-- Embedding of the body of StateId::REGEX after its anchor: every
'/'-separated segment is word-initial. -/
def stateIdOk (l : List Char) : Bool := (splitSlash l).all segOk

/-- The id capture group of StateId::REGEX: the first path segment. -/
def stateIdInstSeg (l : List Char) : List Char := (splitSlash l).headD []

/-- Embedding of struct NodeId(String) from src/src/ids.rs. -/
structure NodeId where
  raw : String
deriving DecidableEq

/-- Embedding of struct StateId(String) from src/src/ids.rs. -/
structure StateId where
  raw : String
deriving DecidableEq

/-- Embedding of enum StateChartError from src/src/error.rs.  The
ValidationError payload (an open_api_matcher error) is modelled by its
message text. -/
inductive StateChartError where
  | mandatoryAttributeMissing (field : String)
  | unexpectedType
  | validationError (message : String)
  | invalidNodeId (id : NodeId)
  | invalidStateId (id : StateId)
  | noRoot
deriving DecidableEq

/-- NodeId::new from src/src/ids.rs: prepends the scheme, no validation. -/
def NodeId.new (node_path : String) : NodeId := ⟨"scn:///" ++ node_path⟩

/-- NodeId::path from src/src/ids.rs: matches the stored text against the
anchored NodeId::REGEX and returns the path capture, failing with
InvalidNodeId on mismatch. -/
def NodeId.path (n : NodeId) : Except StateChartError String :=
  if n.raw.data.take 7 = scnHead ∧ nodePathOk (n.raw.data.drop 7) then
    .ok ⟨n.raw.data.drop 7⟩
  else
    .error (.invalidNodeId n)

/-- StateId::id from src/src/ids.rs: matches the stored text against
StateId::REGEX and returns the id capture (the first path segment),
failing with InvalidStateId on mismatch. -/
def StateId.id (s : StateId) : Except StateChartError String :=
  if s.raw.data.take 7 = smsHead ∧ stateIdOk (s.raw.data.drop 7) then
    .ok ⟨stateIdInstSeg (s.raw.data.drop 7)⟩
  else
    .error (.invalidStateId s)

/-- StateId::new from src/src/ids.rs.  The freshly minted Uuid::new_v4
value is nondeterministic and is passed in as the uuid argument. -/
def StateId.new (uuid : String) (node_id : NodeId) : Except StateChartError StateId := do
  let p ← node_id.path
  .ok ⟨"sms:///" ++ uuid ++ "/" ++ p⟩

/-- StateId::new_with_node from src/src/ids.rs: reuses the machine's id
capture and appends the node's path. -/
def StateId.new_with_node (machine : StateId) (node_id : NodeId) :
    Except StateChartError StateId := do
  let i ← machine.id
  let p ← node_id.path
  .ok ⟨"sms:///" ++ i ++ "/" ++ p⟩

/-- Type alias ActionId from src/src/state_charts.rs. -/
abbrev ActionId := String

/-- Type alias VariableId from src/src/state_charts.rs. -/
abbrev VariableId := String

/-- Type alias EventId from src/src/state_charts.rs. -/
abbrev EventId := String

/-- Type alias PredicateId from src/src/state_charts.rs. -/
abbrev PredicateId := String

/-- Embedding of the open_api_matcher ValidatedValue tree consumed by the
chart build (spec section 6): String, Integer, Number, Bool, None, Array
and ordered-key Object.  The BTreeMap object is modelled as an
association list looked up by key. -/
inductive ValidatedValue where
  | string (s : String)
  | integer (i : Int)
  | number (n : Float)
  | none
  | bool (b : Bool)
  | array (items : List ValidatedValue)
  | object (attrs : List (String × ValidatedValue))

/-- Embedding of get_mandatory from src/src/state_charts.rs: looks the
attribute up and fails with MandatoryAttributeMissing when absent. -/
def get_mandatory (attributes : List (String × ValidatedValue)) (name : String) :
    Except StateChartError ValidatedValue :=
  match attributes.lookup name with
  | some a => .ok a
  | Option.none => .error (.mandatoryAttributeMissing name)

/-- Embedding of the String conversion the build uses for names and
descriptions (TryFrom of ValidatedValue for String, provided by the
open_api_matcher collaborator): the String variant converts, everything
else is UnexpectedType. -/
def stringTryFrom (value : ValidatedValue) : Except StateChartError String :=
  match value with
  | .string s => .ok s
  | _ => .error .unexpectedType

/-- NodeId::try_from for ValidatedValue from src/src/ids.rs: a String
variant is wrapped unchanged (no scn scheme is added and nothing is
validated); everything else is UnexpectedType. -/
def NodeId.try_from (value : ValidatedValue) : Except StateChartError NodeId :=
  match value with
  | .string id => .ok ⟨id⟩
  | _ => .error .unexpectedType

/-- Embedding of enum VariableValue from src/src/state_charts.rs. -/
inductive VariableValue where
  | string (s : String)
  | integer (i : Int)
  | number (n : Float)
  | boolean (b : Bool)
  | none

/-- VariableValue::try_from from src/src/state_charts.rs. -/
def VariableValue.try_from (value : ValidatedValue) : Except StateChartError VariableValue :=
  match value with
  | .string s => .ok (.string s)
  | .integer i => .ok (.integer i)
  | .number n => .ok (.number n)
  | .bool b => .ok (.boolean b)
  | .none => .ok .none
  | _ => .error .unexpectedType

/-- Embedding of struct Parameter from src/src/state_charts.rs (the id
field is the SQLite rowid, None until persisted). -/
structure Parameter where
  id : Option Int
  name : VariableId
  value : VariableValue

/-- Parameter::try_from from src/src/state_charts.rs. -/
def Parameter.try_from (value : ValidatedValue) : Except StateChartError Parameter :=
  match value with
  | .object attributes => do
    let name ← (← get_mandatory attributes "name") |> stringTryFrom
    let v ← (← get_mandatory attributes "value") |> VariableValue.try_from
    .ok { id := Option.none, name := name, value := v }
  | _ => .error .unexpectedType

/-- Embedding of parameters_from_validated_values from
src/src/state_charts.rs: an Array is converted element by element, the
first failure aborts; a non-array is UnexpectedType. -/
def parameters_from_validated_values (values : ValidatedValue) :
    Except StateChartError (List Parameter) :=
  match values with
  | .array items => go items
  | _ => .error .unexpectedType
where
  go : List ValidatedValue → Except StateChartError (List Parameter)
    | [] => .ok []
    | v :: vs => do
      let p ← Parameter.try_from v
      let rest ← go vs
      .ok (p :: rest)

/-- Embedding of struct ActionCall from src/src/state_charts.rs. -/
structure ActionCall where
  id : Option Int
  name : ActionId
  parameters : List Parameter

/-- ActionCall::try_from from src/src/state_charts.rs. -/
def ActionCall.try_from (value : ValidatedValue) : Except StateChartError ActionCall :=
  match value with
  | .object attributes => do
    let name ← (← get_mandatory attributes "name") |> stringTryFrom
    let parameters ← (← get_mandatory attributes "parameters") |> parameters_from_validated_values
    .ok { id := Option.none, name := name, parameters := parameters }
  | _ => .error .unexpectedType

/-- Embedding of struct PredicateCall from src/src/state_charts.rs. -/
structure PredicateCall where
  id : Option Int
  name : PredicateId
  parameters : List Parameter

/-- PredicateCall::try_from from src/src/state_charts.rs. -/
def PredicateCall.try_from (value : ValidatedValue) : Except StateChartError PredicateCall :=
  match value with
  | .object attributes => do
    let name ← (← get_mandatory attributes "name") |> stringTryFrom
    let parameters ← (← get_mandatory attributes "parameters") |> parameters_from_validated_values
    .ok { id := Option.none, name := name, parameters := parameters }
  | _ => .error .unexpectedType

/-- Embedding of enum Guard from src/src/state_charts.rs. -/
inductive Guard where
  | event (e : EventId)
  | predicate (p : PredicateCall)

/-- Guard::try_from from src/src/state_charts.rs: a String variant is an
Event guard, an Object variant a Predicate guard, anything else is
UnexpectedType. -/
def Guard.try_from (value : ValidatedValue) : Except StateChartError Guard :=
  match value with
  | .string event_id => .ok (.event event_id)
  | .object _ => do
    let predicate_call ← PredicateCall.try_from value
    .ok (.predicate predicate_call)
  | _ => .error .unexpectedType

/-- Embedding of struct Transition from src/src/state_charts.rs.  The
target field is named to in the source; to is a reserved token here, so
the guillemet-escaped «to» keeps the source name. -/
structure Transition where
  id : Option Int
  guard : Guard
  «to» : NodeId
  action : Option ActionCall

/-- Transition::try_from from src/src/state_charts.rs: guard and target
are mandatory, the action is optional. -/
def Transition.try_from (value : ValidatedValue) : Except StateChartError Transition :=
  match value with
  | .object attributes => do
    let guard ← (← get_mandatory attributes "guard") |> Guard.try_from
    let target ← (← get_mandatory attributes "to") |> NodeId.try_from
    let action ← match attributes.lookup "action" with
      | Option.none => Except.ok Option.none
      | some v_action => do
        let ac ← ActionCall.try_from v_action
        Except.ok (some ac)
    .ok { id := Option.none, guard := guard, «to» := target, action := action }
  | _ => .error .unexpectedType

/-- Embedding of struct VariableDeclaration from src/src/state_charts.rs. -/
structure VariableDeclaration where
  id : Option Int
  name : String
  type : String
  value : VariableValue

/-- VariableDeclaration::try_from from src/src/state_charts.rs. -/
def VariableDeclaration.try_from (value : ValidatedValue) :
    Except StateChartError VariableDeclaration :=
  match value with
  | .object attributes => do
    let name ← (← get_mandatory attributes "name") |> stringTryFrom
    let ty ← (← get_mandatory attributes "type") |> stringTryFrom
    let v ← (← get_mandatory attributes "value") |> VariableValue.try_from
    .ok { id := Option.none, name := name, type := ty, value := v }
  | _ => .error .unexpectedType

/-- Embedding of transitions_from_validated_value from src/src/node.rs:
an Array is converted in order, the first failure aborts; a non-array is
UnexpectedType. -/
def transitions_from_validated_value (value : ValidatedValue) :
    Except StateChartError (List Transition) :=
  match value with
  | .array transitions => go transitions
  | _ => .error .unexpectedType
where
  go : List ValidatedValue → Except StateChartError (List Transition)
    | [] => .ok []
    | v :: vs => do
      let t ← Transition.try_from v
      let rest ← go vs
      .ok (t :: rest)

/-- Embedding of attributes_from_validated_value from src/src/node.rs: an
absent attribute defaults to the empty list, a present one must be an
Array converted in order. -/
def attributes_from_validated_value (value : Option ValidatedValue) :
    Except StateChartError (List VariableDeclaration) :=
  match value with
  | some (.array attribs) => go attribs
  | some _ => .error .unexpectedType
  | Option.none => .ok []
where
  go : List ValidatedValue → Except StateChartError (List VariableDeclaration)
    | [] => .ok []
    | v :: vs => do
      let d ← VariableDeclaration.try_from v
      let rest ← go vs
      .ok (d :: rest)

/-- Embedding of the inline match of Node::try_from reading an optional
ActionCall attribute (the on-entry and on-exit blocks of src/src/node.rs):
absent defaults to None, a present value must parse. -/
def optional_action_call (v : Option ValidatedValue) :
    Except StateChartError (Option ActionCall) :=
  match v with
  | some vac => do
    let ac ← ActionCall.try_from vac
    .ok (some ac)
  | Option.none => .ok Option.none

/-- Embedding of the inline match of Node::try_from reading the optional
description attribute of src/src/node.rs. -/
def optional_description (v : Option ValidatedValue) :
    Except StateChartError (Option String) :=
  match v with
  | some vd => do
    let d ← stringTryFrom vd
    .ok (some d)
  | Option.none => .ok Option.none

/-- Embedding of the inline match of Node::try_from reading the optional
start-node attribute of src/src/node.rs. -/
def optional_start_node (v : Option ValidatedValue) :
    Except StateChartError (Option NodeId) :=
  match v with
  | some sn => do
    let n ← NodeId.try_from sn
    .ok (some n)
  | Option.none => .ok Option.none

/-- Embedding of the inline match of Node::try_from reading the optional
out-transitions attribute of src/src/node.rs: absent defaults to the
empty list. -/
def defaulted_transitions (v : Option ValidatedValue) :
    Except StateChartError (List Transition) :=
  match v with
  | some ot => transitions_from_validated_value ot
  | Option.none => .ok []

/-- Embedding of struct Node from src/src/node.rs. -/
structure Node where
  id : NodeId
  description : Option String
  on_entry : Option ActionCall
  on_exit : Option ActionCall
  start_node : Option NodeId
  out_transitions : List Transition
  attributes : List VariableDeclaration
  nodes : List Node

/-- Size bound used for the termination of the recursive Node build: a
value found in an association list is smaller than the list. -/
theorem sizeOf_lookup_lt {attrs : List (String × ValidatedValue)} {k : String}
    {v : ValidatedValue} (h : attrs.lookup k = some v) : sizeOf v < sizeOf attrs := by
  induction attrs with
  | nil => simp [List.lookup] at h
  | cons a as ih =>
    rw [List.lookup] at h
    by_cases hk : k == a.1
    · simp only [hk, if_true] at h
      cases h
      cases a with
      | mk a1 a2 =>
        simp only [Prod.mk.sizeOf_spec, List.cons.sizeOf_spec]
        omega
    · simp only [hk, if_false] at h
      have := ih h
      simp only [List.cons.sizeOf_spec]
      omega

/-- Unconditional form of the lookup size bound, for the termination
argument of the Node build. -/
theorem sizeOf_lookup_opt (attrs : List (String × ValidatedValue)) (k : String) :
    sizeOf (attrs.lookup k) < 1 + sizeOf attrs := by
  have hpos : 1 ≤ sizeOf attrs := by
    cases attrs with
    | nil => simp
    | cons a as => simp only [List.cons.sizeOf_spec]; omega
  cases h : attrs.lookup k with
  | none => simp only [Option.none.sizeOf_spec]; omega
  | some v =>
    have := sizeOf_lookup_lt h
    simp only [Option.some.sizeOf_spec]
    omega

mutual

/-- Node::try_from from src/src/node.rs: on_entry, on_exit, description,
start_node and out_transitions are read first (each optional, failing on
a malformed present value), then the mandatory id, then the variable
declarations and the child nodes.  The order of the let bindings mirrors
the evaluation order of the Rust function. -/
def Node.try_from (value : ValidatedValue) : Except StateChartError Node :=
  match value with
  | .object attributes => do
    let on_entry ← optional_action_call (attributes.lookup "on-entry")
    let on_exit ← optional_action_call (attributes.lookup "on-exit")
    let description ← optional_description (attributes.lookup "description")
    let start_node ← optional_start_node (attributes.lookup "start-node")
    let out_transitions ← defaulted_transitions (attributes.lookup "out-transitions")
    let id ← (← get_mandatory attributes "id") |> NodeId.try_from
    let attrs ← attributes_from_validated_value (attributes.lookup "attributes")
    let nodes ← nodes_from_validated_value (attributes.lookup "nodes")
    .ok { id := id, description := description, on_entry := on_entry,
          on_exit := on_exit, start_node := start_node,
          out_transitions := out_transitions, attributes := attrs, nodes := nodes }
  | _ => .error .unexpectedType
termination_by sizeOf value
decreasing_by
  have h1 := sizeOf_lookup_opt attributes "nodes"
  simp only [ValidatedValue.object.sizeOf_spec]
  omega

/-- Embedding of nodes_from_validated_value from src/src/node.rs: an
absent attribute defaults to the empty list, a present one must be an
Array of nodes, converted in order. -/
def nodes_from_validated_value (value : Option ValidatedValue) :
    Except StateChartError (List Node) :=
  match value with
  | some (.array nodes) => nodesListFrom nodes
  | some _ => .error .unexpectedType
  | Option.none => .ok []
termination_by sizeOf value
decreasing_by
  simp only [Option.some.sizeOf_spec, ValidatedValue.array.sizeOf_spec]
  omega

/-- Conversion of the elements of a nodes array, in order, aborting on the
first failure (the loop body of nodes_from_validated_value). -/
def nodesListFrom : List ValidatedValue → Except StateChartError (List Node)
  | [] => .ok []
  | v :: vs => do
    let node ← Node.try_from v
    let rest ← nodesListFrom vs
    .ok (node :: rest)
termination_by l => sizeOf l
decreasing_by
  · simp only [List.cons.sizeOf_spec]; omega
  · simp only [List.cons.sizeOf_spec]; omega

end

/-- Embedding of struct StateMachine from src/src/state_machine.rs. -/
structure StateMachine where
  id : StateId
  state_chart : Node
  current_state : StateId

/-- StateMachine::new from src/src/state_machine.rs: mints the root
instance id from the chart's NodeId (the fresh uuid is the explicit
first argument), then requires start_node and derives current_state from
it in a single hop; a chart without start_node is NoRoot. -/
def StateMachine.new (uuid : String) (state_chart : Node) :
    Except StateChartError StateMachine := do
  let id ← StateId.new uuid state_chart.id
  match state_chart.start_node with
  | some start_node => do
    let current_state ← StateId.new_with_node id start_node
    .ok { id := id, state_chart := state_chart, current_state := current_state }
  | Option.none => .error .noRoot

/-- Modelled from the spec: event-guard matching of section 4.3 (the send
operation is absent from src/src/state_machine.rs, which holds only a
TODO for it).  A transition matches a dispatched event exactly when its
guard is Event(e) with e equal to the dispatched event id; Predicate
guards never match an event. -/
def guardMatchesEvent (t : Transition) (event_id : EventId) : Bool :=
  match t.guard with
  | .event e => e == event_id
  | .predicate _ => false

/-- Modelled from the spec: the scan of section 4.3 "Event dispatch" (the
send operation is absent from src/src/state_machine.rs).  The active
node's out_transitions are walked in declared order and the first
Transition whose guard is Event(e) with e equal to event_id is selected;
later transitions are not reached. -/
def selectTransition (transitions : List Transition) (event_id : EventId) :
    Option Transition :=
  match transitions with
  | [] => Option.none
  | t :: rest =>
    match t.guard with
    | .event e => if e = event_id then some t else selectTransition rest event_id
    | .predicate _ => selectTransition rest event_id

/-- Modelled from the spec: send(event_id) of section 4.3 (absent from
src/src/state_machine.rs).  No matching transition is a no-op; a
selected transition commits by setting current_state to the machine's
instance id joined with the target's path, the commit step (5) for a
leaf target. -/
def sendEvent (m : StateMachine) (active : Node) (event_id : EventId) :
    Except StateChartError StateMachine :=
  match selectTransition active.out_transitions event_id with
  | Option.none => .ok m
  | some t => do
    let current_state ← StateId.new_with_node m.id t.«to»
    .ok { m with current_state := current_state }

/-- Leaf node Root/A/B of the nested demonstration chart. -/
def innerB : Node :=
  { id := NodeId.new "Root/A/B", description := Option.none,
    on_entry := Option.none, on_exit := Option.none, start_node := Option.none,
    out_transitions := [], attributes := [], nodes := [] }

/-- Composite node Root/A of the nested demonstration chart, whose own
start_node continues the default chain to Root/A/B. -/
def innerA : Node :=
  { id := NodeId.new "Root/A", description := Option.none,
    on_entry := Option.none, on_exit := Option.none,
    start_node := some (NodeId.new "Root/A/B"),
    out_transitions := [], attributes := [], nodes := [innerB] }

/-- Nested demonstration chart: the root's default chain is
Root, then Root/A, then Root/A/B. -/
def rootNested : Node :=
  { id := NodeId.new "Root", description := Option.none,
    on_entry := Option.none, on_exit := Option.none,
    start_node := some (NodeId.new "Root/A"),
    out_transitions := [], attributes := [], nodes := [innerA] }

/-- Validated input of the section 8 chart with the ids written literally
as in the spec sentence. -/
def chartLiteral : ValidatedValue :=
  .object [("id", .string "Root"), ("start-node", .string "Root/A"),
           ("nodes", .array [.object [("id", .string "Root/A")]])]

/-- Validated input of the section 8 chart with the ids written as the scn
URIs the repository's chart files carry. -/
def chartScn : ValidatedValue :=
  .object [("id", .string "scn:///Root"), ("start-node", .string "scn:///Root/A"),
           ("nodes", .array [.object [("id", .string "scn:///Root/A")]])]

/-- The same chart without its start-node attribute. -/
def chartScnNoStart : ValidatedValue :=
  .object [("id", .string "scn:///Root"),
           ("nodes", .array [.object [("id", .string "scn:///Root/A")]])]

/-- Transition guarded by an always-false predicate, for the dispatch
example of section 8. -/
def tPred : Transition :=
  { id := Option.none,
    guard := .predicate { id := Option.none, name := "always-false", parameters := [] },
    «to» := NodeId.new "Root/C", action := Option.none }

/-- Transition guarded by the event go, for the dispatch example of
section 8. -/
def tGo : Transition :=
  { id := Option.none, guard := .event "go",
    «to» := NodeId.new "Root/B", action := Option.none }

/-- Active node of the dispatch example: its transition list declares the
predicate-guarded transition before the event-guarded one. -/
def activeDemo : Node :=
  { id := NodeId.new "Root/A", description := Option.none,
    on_entry := Option.none, on_exit := Option.none, start_node := Option.none,
    out_transitions := [tPred, tGo], attributes := [], nodes := [] }

/-- Machine of the dispatch example, instantiated with instance id u1 and
active in Root/A. -/
def machDemo : StateMachine :=
  { id := ⟨"sms:///u1/Root"⟩, state_chart := activeDemo,
    current_state := ⟨"sms:///u1/Root/A"⟩ }

/-- Chart whose start_node names a node that exists nowhere in the chart,
for the unchecked-instantiation claim. -/
def ghostNode : Node :=
  { id := NodeId.new "Root", description := Option.none,
    on_entry := Option.none, on_exit := Option.none,
    start_node := some (NodeId.new "Root/Ghost"),
    out_transitions := [], attributes := [], nodes := [innerB] }

/-- Node produced by building the child object of the scn-URI chart. -/
def childScnNode : Node :=
  { id := ⟨"scn:///Root/A"⟩, description := Option.none,
    on_entry := Option.none, on_exit := Option.none, start_node := Option.none,
    out_transitions := [], attributes := [], nodes := [] }

/-- Node produced by building the scn-URI chart. -/
def rootScnNode : Node :=
  { id := ⟨"scn:///Root"⟩, description := Option.none,
    on_entry := Option.none, on_exit := Option.none,
    start_node := some ⟨"scn:///Root/A"⟩,
    out_transitions := [], attributes := [], nodes := [childScnNode] }

/-- Node produced by building the scn-URI chart without start-node. -/
def rootScnNoStartNode : Node :=
  { id := ⟨"scn:///Root"⟩, description := Option.none,
    on_entry := Option.none, on_exit := Option.none, start_node := Option.none,
    out_transitions := [], attributes := [], nodes := [childScnNode] }

/-- Node produced by building the child object of the literal-id chart. -/
def childLitNode : Node :=
  { id := ⟨"Root/A"⟩, description := Option.none,
    on_entry := Option.none, on_exit := Option.none, start_node := Option.none,
    out_transitions := [], attributes := [], nodes := [] }

/-- Node produced by building the literal-id chart: the ids are stored
exactly as written, without any scn scheme. -/
def rootLitNode : Node :=
  { id := ⟨"Root"⟩, description := Option.none,
    on_entry := Option.none, on_exit := Option.none,
    start_node := some ⟨"Root/A"⟩,
    out_transitions := [], attributes := [], nodes := [childLitNode] }

/-- Unfolding equation of nodes_from_validated_value at an absent
attribute. -/
theorem nodes_fvv_none : nodes_from_validated_value Option.none = .ok [] := by
  rw [nodes_from_validated_value.eq_def]

/-- Unfolding equation of nodes_from_validated_value at an Array. -/
theorem nodes_fvv_array (ns : List ValidatedValue) :
    nodes_from_validated_value (some (.array ns)) = nodesListFrom ns := by
  rw [nodes_from_validated_value.eq_def]

/-- Unfolding equation of nodesListFrom at the empty list. -/
theorem nodesListFrom_nil : nodesListFrom [] = .ok [] := by
  rw [nodesListFrom.eq_def]

/-- Unfolding equation of nodesListFrom at a cons. -/
theorem nodesListFrom_cons (v : ValidatedValue) (vs : List ValidatedValue) :
    nodesListFrom (v :: vs) = (do
      let node ← Node.try_from v
      let rest ← nodesListFrom vs
      .ok (node :: rest)) := by
  rw [nodesListFrom.eq_def]

/-- Unfolding equation of Node::try_from at an Object, restating the body
of the recursive definition so that concrete charts can be evaluated and
arbitrary attribute maps reasoned about. -/
theorem Node.try_from_object (attrs : List (String × ValidatedValue)) :
    Node.try_from (.object attrs) = (do
    let on_entry ← optional_action_call (attrs.lookup "on-entry")
    let on_exit ← optional_action_call (attrs.lookup "on-exit")
    let description ← optional_description (attrs.lookup "description")
    let start_node ← optional_start_node (attrs.lookup "start-node")
    let out_transitions ← defaulted_transitions (attrs.lookup "out-transitions")
    let id ← (← get_mandatory attrs "id") |> NodeId.try_from
    let nattrs ← attributes_from_validated_value (attrs.lookup "attributes")
    let nodes ← nodes_from_validated_value (attrs.lookup "nodes")
    Except.ok
      { id := id, description := description, on_entry := on_entry,
        on_exit := on_exit, start_node := start_node,
        out_transitions := out_transitions, attributes := nattrs, nodes := nodes }) := by
  rw [Node.try_from.eq_def]

/-- Unfolding equation of Node::try_from at every non-Object variant. -/
theorem Node.try_from_not_object (v : ValidatedValue)
    (h : ∀ attrs, v ≠ .object attrs) :
    Node.try_from v = .error .unexpectedType := by
  rw [Node.try_from.eq_def]
  cases v with
  | object attrs => exact absurd rfl (h attrs)
  | string s => rfl
  | integer i => rfl
  | number n => rfl
  | none => rfl
  | bool b => rfl
  | array items => rfl

/-- Building the child object of the scn-URI chart. -/
theorem build_childScn :
    Node.try_from (.object [("id", .string "scn:///Root/A")]) = .ok childScnNode := by
  rw [Node.try_from_object,
      show List.lookup "nodes" [("id", ValidatedValue.string "scn:///Root/A")] =
        Option.none from rfl,
      nodes_fvv_none]
  rfl

/-- Building the scn-URI chart yields rootScnNode. -/
theorem build_chartScn : Node.try_from chartScn = .ok rootScnNode := by
  rw [show chartScn = .object [("id", .string "scn:///Root"),
        ("start-node", .string "scn:///Root/A"),
        ("nodes", .array [.object [("id", .string "scn:///Root/A")]])] from rfl,
      Node.try_from_object,
      show List.lookup "nodes" [("id", ValidatedValue.string "scn:///Root"),
        ("start-node", ValidatedValue.string "scn:///Root/A"),
        ("nodes", ValidatedValue.array [.object [("id", .string "scn:///Root/A")]])] =
        some (.array [.object [("id", .string "scn:///Root/A")]]) from rfl,
      nodes_fvv_array, nodesListFrom_cons, build_childScn, nodesListFrom_nil]
  rfl

/-- Building the scn-URI chart without start-node yields
rootScnNoStartNode. -/
theorem build_chartScnNoStart :
    Node.try_from chartScnNoStart = .ok rootScnNoStartNode := by
  rw [show chartScnNoStart = .object [("id", .string "scn:///Root"),
        ("nodes", .array [.object [("id", .string "scn:///Root/A")]])] from rfl,
      Node.try_from_object,
      show List.lookup "nodes" [("id", ValidatedValue.string "scn:///Root"),
        ("nodes", ValidatedValue.array [.object [("id", .string "scn:///Root/A")]])] =
        some (.array [.object [("id", .string "scn:///Root/A")]]) from rfl,
      nodes_fvv_array, nodesListFrom_cons, build_childScn, nodesListFrom_nil]
  rfl

/-- Building the child object of the literal-id chart. -/
theorem build_childLit :
    Node.try_from (.object [("id", .string "Root/A")]) = .ok childLitNode := by
  rw [Node.try_from_object,
      show List.lookup "nodes" [("id", ValidatedValue.string "Root/A")] =
        Option.none from rfl,
      nodes_fvv_none]
  rfl

/-- Bind of a successful Except computation, for stepping through the
do-blocks of the embedded operations. -/
theorem except_bind_ok {α β ε : Type} (a : α) (f : α → Except ε β) :
    (Except.ok a : Except ε α) >>= f = f a := rfl

/-- Bind of a failed Except computation. -/
theorem except_bind_error {α β ε : Type} (e : ε) (f : α → Except ε β) :
    (Except.error e : Except ε α) >>= f = .error e := rfl

/-- The slash splitter never returns an empty list of parts. -/
theorem splitSlash_ne_nil (l : List Char) : splitSlash l ≠ [] := by
  cases l with
  | nil => simp [splitSlash]
  | cons c cs =>
    simp only [splitSlash]
    by_cases hc : c = '/'
    · simp [hc]
    · simp only [hc, if_false]
      cases hs : splitSlash cs with
      | nil => simp
      | cons p ps => simp

/-- Splitting a list that starts with a slash yields an empty first part. -/
theorem splitSlash_slash (cs : List Char) :
    splitSlash ('/' :: cs) = [] :: splitSlash cs := by
  simp [splitSlash]

/-- Splitting a list that starts with a non-slash character prepends that
character to the first part of the tail's split. -/
theorem splitSlash_cons_ne (c : Char) (cs : List Char) (hc : c ≠ '/')
    (p : List Char) (ps : List (List Char)) (hs : splitSlash cs = p :: ps) :
    splitSlash (c :: cs) = (c :: p) :: ps := by
  simp [splitSlash, hc, hs]

/-- Splitting a slash-free part followed by a slash and a remainder
isolates that part as the first segment. -/
theorem splitSlash_append_no_slash (u r : List Char) (h : ∀ c ∈ u, c ≠ '/') :
    splitSlash (u ++ '/' :: r) = u :: splitSlash r := by
  induction u with
  | nil => simp [splitSlash]
  | cons c cs ih =>
    have hc : c ≠ '/' := h c (by simp)
    have ih' := ih (fun x hx => h x (by simp [hx]))
    rw [List.cons_append, splitSlash_cons_ne c _ hc _ _ ih']

/-- A well-formed StateId segment contains no slash. -/
theorem segOk_no_slash {u : List Char} (h : segOk u = true) :
    ∀ c ∈ u, c ≠ '/' := by
  cases u with
  | nil => simp
  | cons a as =>
    simp only [segOk, Bool.and_eq_true] at h
    intro c hc
    rcases List.mem_cons.mp hc with rfl | hmem
    · intro hslash
      rw [hslash] at h
      exact absurd h.1 (by decide)
    · intro hslash
      have hs := (List.all_eq_true.mp h.2) c hmem
      rw [hslash] at hs
      exact absurd hs (by decide)

/-- A letter-initial first segment also satisfies the word-initial segment
pattern. -/
theorem firstSegOk_segOk {s : List Char} (h : firstSegOk s = true) :
    segOk s = true := by
  cases s with
  | nil => exact absurd h (by simp [firstSegOk])
  | cons c cs =>
    simp only [firstSegOk, Bool.and_eq_true] at h
    simp only [segOk, Bool.and_eq_true]
    exact ⟨by simp [isWordChar, h.1], h.2⟩

/-- Every segment of a valid NodeId path satisfies the segment pattern. -/
theorem nodePathOk_all_segOk {l : List Char} (h : nodePathOk l = true) :
    (splitSlash l).all segOk = true := by
  cases hs : splitSlash l with
  | nil => exact absurd hs (splitSlash_ne_nil l)
  | cons s rest =>
    rw [nodePathOk, hs] at h
    simp only [Bool.and_eq_true] at h
    simp only [List.all_cons, Bool.and_eq_true]
    exact ⟨firstSegOk_segOk h.1, h.2⟩

/-- Inversion of a successful NodeId::path call: the returned path
satisfies the path pattern. -/
theorem nodePathOk_of_path_ok {n : NodeId} {p : String} (h : n.path = .ok p) :
    nodePathOk p.data = true := by
  unfold NodeId.path at h
  split at h
  · rename_i hcond
    cases h
    exact hcond.2
  · cases h

/-- Computation of StateId::id on an address assembled from a slash-free
instance segment and a valid node path: the instance segment is
recovered. -/
theorem stateId_id_of_append (uuid p : String)
    (hu : segOk uuid.data = true) (hp : nodePathOk p.data = true) :
    StateId.id ⟨"sms:///" ++ uuid ++ "/" ++ p⟩ = .ok uuid := by
  have hnoslash : ∀ c ∈ uuid.data, c ≠ '/' := segOk_no_slash hu
  have hdata : ("sms:///" ++ uuid ++ "/" ++ p).data
      = smsHead ++ (uuid.data ++ '/' :: p.data) := by
    simp [String.data_append, List.append_assoc]
    rfl
  have hsplit : splitSlash (uuid.data ++ '/' :: p.data)
      = uuid.data :: splitSlash p.data :=
    splitSlash_append_no_slash _ _ hnoslash
  simp only [StateId.id, stateIdOk, stateIdInstSeg]
  rw [hdata,
    List.take_left' (show smsHead.length = 7 from rfl),
    List.drop_left' (show smsHead.length = 7 from rfl), hsplit]
  rw [if_pos]
  · rfl
  · refine ⟨rfl, ?_⟩
    show (uuid.data :: splitSlash p.data).all segOk = true
    simp only [List.all_cons, Bool.and_eq_true]
    exact ⟨hu, nodePathOk_all_segOk hp⟩

/-- Computation of StateMachine::new at a chart with a valid id path, a
start_node with a valid path and a slash-free uuid: the machine is built
in a single hop with current_state pointing at the start_node path. -/
theorem machine_new_ok (node : Node) (uuid p q : String) (sn : NodeId)
    (hu : segOk uuid.data = true) (hid : node.id.path = .ok p)
    (hsn : node.start_node = some sn) (hq : sn.path = .ok q) :
    StateMachine.new uuid node =
      .ok { id := ⟨"sms:///" ++ uuid ++ "/" ++ p⟩,
            state_chart := node,
            current_state := ⟨"sms:///" ++ uuid ++ "/" ++ q⟩ } := by
  have hp : nodePathOk p.data = true := nodePathOk_of_path_ok hid
  unfold StateMachine.new StateId.new StateId.new_with_node
  rw [hid]
  simp only [except_bind_ok]
  rw [hsn]
  simp only [except_bind_ok]
  rw [stateId_id_of_append uuid p hu hp]
  simp only [except_bind_ok]
  rw [hq]
  simp only [except_bind_ok]

/-- Building the literal-id chart succeeds and stores the ids verbatim. -/
theorem build_chartLiteral : Node.try_from chartLiteral = .ok rootLitNode := by
  rw [show chartLiteral = .object [("id", .string "Root"),
        ("start-node", .string "Root/A"),
        ("nodes", .array [.object [("id", .string "Root/A")]])] from rfl,
      Node.try_from_object,
      show List.lookup "nodes" [("id", ValidatedValue.string "Root"),
        ("start-node", ValidatedValue.string "Root/A"),
        ("nodes", ValidatedValue.array [.object [("id", .string "Root/A")]])] =
        some (.array [.object [("id", .string "Root/A")]]) from rfl,
      nodes_fvv_array, nodesListFrom_cons, build_childLit, nodesListFrom_nil]
  rfl

/-- Scanning past a transition whose guard does not match the dispatched
event. -/
theorem selectTransition_skip (t : Transition) (ts : List Transition) (ev : EventId)
    (h : guardMatchesEvent t ev = false) :
    selectTransition (t :: ts) ev = selectTransition ts ev := by
  cases hg : t.guard with
  | event e =>
    rw [guardMatchesEvent, hg] at h
    have hne : e ≠ ev := by
      intro he
      rw [he] at h
      simp at h
    rw [selectTransition, hg]
    exact if_neg hne
  | predicate pc =>
    rw [selectTransition, hg]

/-- A transition whose Event guard matches is selected on the spot. -/
theorem selectTransition_match (t : Transition) (ts : List Transition) (ev : EventId)
    (h : guardMatchesEvent t ev = true) :
    selectTransition (t :: ts) ev = some t := by
  cases hg : t.guard with
  | event e =>
    rw [guardMatchesEvent, hg] at h
    have he : e = ev := by simpa using h
    rw [selectTransition, hg]
    exact if_pos he
  | predicate pc =>
    rw [guardMatchesEvent, hg] at h
    cases h

/-- First-match selection: whatever follows the first matching transition
is irrelevant. -/
theorem selectTransition_first (before after : List Transition) (t : Transition)
    (ev : EventId) (hb : ∀ u ∈ before, guardMatchesEvent u ev = false)
    (ht : guardMatchesEvent t ev = true) :
    selectTransition (before ++ t :: after) ev = some t := by
  induction before with
  | nil => simpa using selectTransition_match t after ev ht
  | cons b bs ih =>
    rw [List.cons_append, selectTransition_skip b _ ev (hb b (by simp))]
    exact ih (fun u hu => hb u (by simp [hu]))

/-- With no matching Event guard in the list, nothing is selected. -/
theorem selectTransition_none (ts : List Transition) (ev : EventId)
    (h : ∀ u ∈ ts, guardMatchesEvent u ev = false) :
    selectTransition ts ev = Option.none := by
  induction ts with
  | nil => rfl
  | cons b bs ih =>
    rw [selectTransition_skip b bs ev (h b (by simp))]
    exact ih (fun u hu => h u (by simp [hu]))

/-- Claim C4: for every path string P that satisfies the NodeId path
pattern, NodeId::new(P).path() returns P unchanged. -/
theorem nodeId_new_path_roundtrip (P : String) (h : nodePathOk P.data = true) :
    (NodeId.new P).path = .ok P := by
  have hdata : ("scn:///" ++ P).data = scnHead ++ P.data := by
    rw [String.data_append]
    rfl
  simp only [NodeId.new, NodeId.path]
  rw [hdata, List.take_left' (show scnHead.length = 7 from rfl),
      List.drop_left' (show scnHead.length = 7 from rfl), if_pos ⟨rfl, h⟩]

/-- Witness for C4 at the concrete path Root/A. -/
theorem nodeId_new_path_roundtrip_witness :
    nodePathOk ("Root/A" : String).data = true ∧
    (NodeId.new "Root/A").path = .ok "Root/A" :=
  ⟨by decide, nodeId_new_path_roundtrip "Root/A" (by decide)⟩

/-- Claim C5: NodeId::new never validates and never fails — it stores the
scn-prefixed text verbatim — and for every string violating the path
pattern the failure surfaces only at path(), as InvalidNodeId; in
particular any string whose first character is not a letter violates the
pattern. -/
theorem nodeId_deferred_validation (P : String) (h : nodePathOk P.data = false) :
    (NodeId.new P).raw = "scn:///" ++ P ∧
    (NodeId.new P).path = .error (.invalidNodeId (NodeId.new P)) ∧
    ∀ (c : Char) (cs : List Char), c.isAlpha = false → nodePathOk (c :: cs) = false := by
  refine ⟨rfl, ?_, ?_⟩
  · have hdata : ("scn:///" ++ P).data = scnHead ++ P.data := by
      rw [String.data_append]
      rfl
    simp only [NodeId.new, NodeId.path]
    rw [hdata, List.take_left' (show scnHead.length = 7 from rfl),
        List.drop_left' (show scnHead.length = 7 from rfl), if_neg]
    rintro ⟨-, hok⟩
    rw [h] at hok
    cases hok
  · intro c cs hc
    by_cases hsl : c = '/'
    · subst hsl
      unfold nodePathOk
      rw [splitSlash_slash]
      simp [firstSegOk]
    · cases hs : splitSlash cs with
      | nil => exact absurd hs (splitSlash_ne_nil cs)
      | cons p ps =>
        unfold nodePathOk
        rw [splitSlash_cons_ne c cs hsl p ps hs]
        simp [firstSegOk, hc]

/-- Witness for C5 at the concrete string 1Root, whose first character is
not a letter. -/
theorem nodeId_deferred_validation_witness :
    nodePathOk ("1Root" : String).data = false ∧
    ((NodeId.new "1Root").raw = "scn:///" ++ "1Root" ∧
     (NodeId.new "1Root").path = .error (.invalidNodeId (NodeId.new "1Root")) ∧
     ∀ (c : Char) (cs : List Char), c.isAlpha = false → nodePathOk (c :: cs) = false) :=
  ⟨by decide, nodeId_deferred_validation "1Root" (by decide)⟩

/-- Claim C6 counterexample: the StateId sms:///abc/!! has a well-formed
instance segment (abc, its first path segment) and Root/A is a valid
node path, yet new_with_node on it fails with InvalidStateId instead of
succeeding — the claim's hypothesis on the instance segment alone does
not suffice. -/
theorem new_with_node_instance_segment_counterexample :
    segOk (stateIdInstSeg (("sms:///abc/!!" : String).data.drop 7)) = true ∧
    nodePathOk (("Root/A" : String).data) = true ∧
    StateId.new_with_node ⟨"sms:///abc/!!"⟩ (NodeId.new "Root/A") =
      .error (.invalidStateId ⟨"sms:///abc/!!"⟩) := by
  exact ⟨by decide, by decide, rfl⟩

/-- Claim C6 (amended): for every StateId whose full text matches the
StateId pattern — not merely one with a well-formed instance segment —
and every NodeId with a valid path, new_with_node succeeds and yields
sms:///i/p where i is exactly the parent's instance segment (its first
path segment) and p the node's path. -/
theorem new_with_node_valid_state (s : StateId) (n : NodeId) (i p : String)
    (hi : s.id = .ok i) (hp : n.path = .ok p) :
    i.data = stateIdInstSeg (s.raw.data.drop 7) ∧
    StateId.new_with_node s n = .ok ⟨"sms:///" ++ i ++ "/" ++ p⟩ := by
  constructor
  · unfold StateId.id at hi
    split at hi
    · cases hi
      rfl
    · cases hi
  · unfold StateId.new_with_node
    rw [hi]
    simp only [except_bind_ok]
    rw [hp]
    simp only [except_bind_ok]

/-- Witness for C6 (amended) at sms:///u1/Root and node path Root/A. -/
theorem new_with_node_valid_state_witness :
    (StateId.id ⟨"sms:///u1/Root"⟩ = .ok "u1" ∧
     (NodeId.new "Root/A").path = .ok "Root/A") ∧
    (("u1" : String).data = stateIdInstSeg (("sms:///u1/Root" : String).data.drop 7) ∧
     StateId.new_with_node ⟨"sms:///u1/Root"⟩ (NodeId.new "Root/A") =
       .ok ⟨"sms:///" ++ "u1" ++ "/" ++ "Root/A"⟩) :=
  ⟨⟨rfl, rfl⟩,
   new_with_node_valid_state ⟨"sms:///u1/Root"⟩ (NodeId.new "Root/A") "u1" "Root/A" rfl rfl⟩

/-- Claim C7: building a Node from the minimal validated object holding
only the id attribute X succeeds, with id stored as NodeId("X") and
every optional or collection field at its default: description, on_entry,
on_exit and start_node none, out_transitions, variables and child nodes
empty. -/
theorem minimal_node_defaults :
    Node.try_from (.object [("id", .string "X")]) =
      .ok { id := ⟨"X"⟩, description := Option.none, on_entry := Option.none,
            on_exit := Option.none, start_node := Option.none,
            out_transitions := [], attributes := [], nodes := [] } := by
  rw [Node.try_from_object,
      show List.lookup "nodes" [("id", ValidatedValue.string "X")] = Option.none from rfl,
      nodes_fvv_none]
  rfl


/-- Computation of the optional ActionCall reader at an absent attribute. -/
theorem optional_action_call_none :
    optional_action_call Option.none = .ok Option.none := rfl

/-- Computation of the optional ActionCall reader at a present attribute. -/
theorem optional_action_call_some (v : ValidatedValue) :
    optional_action_call (some v) = (do
      let ac ← ActionCall.try_from v
      .ok (some ac)) := rfl

/-- Computation of the optional description reader at a present attribute. -/
theorem optional_description_some (v : ValidatedValue) :
    optional_description (some v) = (do
      let d ← stringTryFrom v
      .ok (some d)) := rfl

/-- Computation of the optional start-node reader at a present attribute. -/
theorem optional_start_node_some (v : ValidatedValue) :
    optional_start_node (some v) = (do
      let n ← NodeId.try_from v
      .ok (some n)) := rfl

/-- Claim C8: a validated object without the id attribute never yields a
Node, and whenever every present leading optional attribute (on-entry,
on-exit, description, start-node, out-transitions — the attributes the
build reads before the id, all of which parse on schema-conformant
input) parses, the error is exactly MandatoryAttributeMissing("id"). -/
theorem missing_id_fails (attrs : List (String × ValidatedValue))
    (hid : attrs.lookup "id" = Option.none) :
    (∀ node, Node.try_from (.object attrs) ≠ .ok node) ∧
    ((∀ v, attrs.lookup "on-entry" = some v → ∃ a, ActionCall.try_from v = .ok a) →
     (∀ v, attrs.lookup "on-exit" = some v → ∃ a, ActionCall.try_from v = .ok a) →
     (∀ v, attrs.lookup "description" = some v → ∃ s, stringTryFrom v = .ok s) →
     (∀ v, attrs.lookup "start-node" = some v → ∃ n, NodeId.try_from v = .ok n) →
     (∀ v, attrs.lookup "out-transitions" = some v →
        ∃ ts, transitions_from_validated_value v = .ok ts) →
     Node.try_from (.object attrs) = .error (.mandatoryAttributeMissing "id")) := by
  have hmand : get_mandatory attrs "id" = .error (.mandatoryAttributeMissing "id") := by
    rw [get_mandatory, hid]
  constructor
  · intro node hm
    rw [Node.try_from_object] at hm
    rcases h1 : optional_action_call (attrs.lookup "on-entry") with e1 | v1 <;>
      rw [h1] at hm
    · rw [except_bind_error] at hm
      cases hm
    rw [except_bind_ok] at hm
    rcases h2 : optional_action_call (attrs.lookup "on-exit") with e2 | v2 <;>
      rw [h2] at hm
    · rw [except_bind_error] at hm
      cases hm
    rw [except_bind_ok] at hm
    rcases h3 : optional_description (attrs.lookup "description") with e3 | v3 <;>
      rw [h3] at hm
    · rw [except_bind_error] at hm
      cases hm
    rw [except_bind_ok] at hm
    rcases h4 : optional_start_node (attrs.lookup "start-node") with e4 | v4 <;>
      rw [h4] at hm
    · rw [except_bind_error] at hm
      cases hm
    rw [except_bind_ok] at hm
    rcases h5 : defaulted_transitions (attrs.lookup "out-transitions") with e5 | v5 <;>
      rw [h5] at hm
    · rw [except_bind_error] at hm
      cases hm
    rw [except_bind_ok, hmand, except_bind_error] at hm
    cases hm
  · intro hoe hox hd hs ht
    obtain ⟨w1, hw1⟩ : ∃ w, optional_action_call (attrs.lookup "on-entry") = .ok w := by
      cases l : attrs.lookup "on-entry" with
      | none => exact ⟨Option.none, rfl⟩
      | some v =>
        obtain ⟨a, ha⟩ := hoe v l
        exact ⟨some a, by rw [optional_action_call_some, ha, except_bind_ok]⟩
    obtain ⟨w2, hw2⟩ : ∃ w, optional_action_call (attrs.lookup "on-exit") = .ok w := by
      cases l : attrs.lookup "on-exit" with
      | none => exact ⟨Option.none, rfl⟩
      | some v =>
        obtain ⟨a, ha⟩ := hox v l
        exact ⟨some a, by rw [optional_action_call_some, ha, except_bind_ok]⟩
    obtain ⟨w3, hw3⟩ : ∃ w, optional_description (attrs.lookup "description") = .ok w := by
      cases l : attrs.lookup "description" with
      | none => exact ⟨Option.none, rfl⟩
      | some v =>
        obtain ⟨a, ha⟩ := hd v l
        exact ⟨some a, by rw [optional_description_some, ha, except_bind_ok]⟩
    obtain ⟨w4, hw4⟩ : ∃ w, optional_start_node (attrs.lookup "start-node") = .ok w := by
      cases l : attrs.lookup "start-node" with
      | none => exact ⟨Option.none, rfl⟩
      | some v =>
        obtain ⟨a, ha⟩ := hs v l
        exact ⟨some a, by rw [optional_start_node_some, ha, except_bind_ok]⟩
    obtain ⟨w5, hw5⟩ : ∃ w, defaulted_transitions (attrs.lookup "out-transitions") = .ok w := by
      cases l : attrs.lookup "out-transitions" with
      | none => exact ⟨[], rfl⟩
      | some v =>
        obtain ⟨ts', hts⟩ := ht v l
        exact ⟨ts', by rw [defaulted_transitions, hts]⟩
    rw [Node.try_from_object, hw1, except_bind_ok, hw2, except_bind_ok, hw3,
        except_bind_ok, hw4, except_bind_ok, hw5, except_bind_ok, hmand,
        except_bind_error]

/-- Witness for C8 at the empty object. -/
theorem missing_id_fails_witness :
    List.lookup "id" ([] : List (String × ValidatedValue)) = Option.none ∧
    ((∀ node, Node.try_from (.object []) ≠ .ok node) ∧
     Node.try_from (.object []) = .error (.mandatoryAttributeMissing "id")) :=
  ⟨rfl,
   (missing_id_fails [] rfl).1,
   (missing_id_fails [] rfl).2
     (fun v h => by cases h) (fun v h => by cases h) (fun v h => by cases h)
     (fun v h => by cases h) (fun v h => by cases h)⟩

/-- Claim C9: a Node without start_node can never be instantiated,
regardless of whether it has children, and when its id path is valid the
failure is exactly NoRoot — so a chart whose root is a leaf (no children
and no start_node) is unreachable as a machine. -/
theorem no_start_node_noroot (node : Node) (uuid : String)
    (h : node.start_node = Option.none) :
    (∀ m, StateMachine.new uuid node ≠ .ok m) ∧
    ((∃ p, node.id.path = .ok p) → StateMachine.new uuid node = .error .noRoot) := by
  constructor
  · intro m hm
    unfold StateMachine.new StateId.new at hm
    cases hid : node.id.path with
    | error e =>
      rw [hid, except_bind_error, except_bind_error] at hm
      cases hm
    | ok p =>
      rw [hid, except_bind_ok, except_bind_ok, h] at hm
      cases hm
  · rintro ⟨p, hp⟩
    unfold StateMachine.new StateId.new
    rw [hp, except_bind_ok, except_bind_ok, h]

/-- Witness for C9 at the leaf chart Root/A/B. -/
theorem no_start_node_noroot_witness :
    innerB.start_node = Option.none ∧
    ((∀ m, StateMachine.new "u1" innerB ≠ .ok m) ∧
     ((∃ p, innerB.id.path = .ok p) → StateMachine.new "u1" innerB = .error .noRoot)) :=
  ⟨rfl, no_start_node_noroot innerB "u1" rfl⟩

/-- Claim C10: StateMachine::new neither checks that start_node names an
existing node nor invokes any on_entry action (the embedded operation
performs no action calls at all): for every chart whose id and
start_node carry pattern-valid paths — and any slash-free minted uuid —
creation succeeds and current_state is the root's fresh instance id
joined with start_node's path, whatever the chart's children are. -/
theorem new_unchecked_start_node (node : Node) (uuid p q : String) (sn : NodeId)
    (hu : segOk uuid.data = true) (hid : node.id.path = .ok p)
    (hsn : node.start_node = some sn) (hq : sn.path = .ok q) :
    StateMachine.new uuid node =
      .ok { id := ⟨"sms:///" ++ uuid ++ "/" ++ p⟩,
            state_chart := node,
            current_state := ⟨"sms:///" ++ uuid ++ "/" ++ q⟩ } :=
  machine_new_ok node uuid p q sn hu hid hsn hq

/-- Witness for C10 at a chart whose start_node Root/Ghost names no node
of the chart. -/
theorem new_unchecked_start_node_witness :
    (segOk ("u1" : String).data = true ∧ ghostNode.id.path = .ok "Root" ∧
     ghostNode.start_node = some (NodeId.new "Root/Ghost") ∧
     (NodeId.new "Root/Ghost").path = .ok "Root/Ghost") ∧
    StateMachine.new "u1" ghostNode =
      .ok { id := ⟨"sms:///" ++ "u1" ++ "/" ++ "Root"⟩,
            state_chart := ghostNode,
            current_state := ⟨"sms:///" ++ "u1" ++ "/" ++ "Root/Ghost"⟩ } :=
  ⟨⟨by decide, rfl, rfl, rfl⟩,
   new_unchecked_start_node ghostNode "u1" "Root" "Root/Ghost" (NodeId.new "Root/Ghost")
     (by decide) rfl rfl rfl⟩

/-- Claim C1 counterexample: for the nested chart whose default chain is
Root, then Root/A, then the leaf Root/A/B, instantiation stops after a
single hop — current_state addresses Root/A, which is not the address of
the final chain node Root/A/B. -/
theorem instantiation_single_hop_counterexample :
    (StateMachine.new "u1" rootNested).map (fun m => m.current_state) =
      .ok ⟨"sms:///u1/Root/A"⟩ ∧
    (⟨"sms:///u1/Root/A"⟩ : StateId) ≠ ⟨"sms:///u1/Root/A/B"⟩ :=
  ⟨rfl, by decide⟩

/-- Claim C1 (amended): instantiation from a Node with start_node set
performs exactly one hop — current_state is the root's fresh instance id
joined with the root's start_node path, on_entry is never invoked (the
embedded StateMachine::new performs no action calls), and the chain
below the start_node is not followed: the chart's children are
irrelevant to the resulting current_state. -/
theorem instantiation_single_hop (node : Node) (uuid p q : String) (sn : NodeId)
    (hu : segOk uuid.data = true) (hid : node.id.path = .ok p)
    (hsn : node.start_node = some sn) (hq : sn.path = .ok q) :
    (StateMachine.new uuid node).map (fun m => m.current_state) =
      .ok ⟨"sms:///" ++ uuid ++ "/" ++ q⟩ ∧
    (StateMachine.new uuid { node with nodes := [] }).map (fun m => m.current_state) =
      .ok ⟨"sms:///" ++ uuid ++ "/" ++ q⟩ := by
  constructor
  · rw [machine_new_ok node uuid p q sn hu hid hsn hq]
    rfl
  · rw [machine_new_ok { node with nodes := [] } uuid p q sn hu hid hsn hq]
    rfl

/-- Witness for C1 (amended) at the nested demonstration chart. -/
theorem instantiation_single_hop_witness :
    (segOk ("u1" : String).data = true ∧ rootNested.id.path = .ok "Root" ∧
     rootNested.start_node = some (NodeId.new "Root/A") ∧
     (NodeId.new "Root/A").path = .ok "Root/A") ∧
    ((StateMachine.new "u1" rootNested).map (fun m => m.current_state) =
       .ok ⟨"sms:///" ++ "u1" ++ "/" ++ "Root/A"⟩ ∧
     (StateMachine.new "u1" { rootNested with nodes := [] }).map
         (fun m => m.current_state) =
       .ok ⟨"sms:///" ++ "u1" ++ "/" ++ "Root/A"⟩) :=
  ⟨⟨by decide, rfl, rfl, rfl⟩,
   instantiation_single_hop rootNested "u1" "Root" "Root/A" (NodeId.new "Root/A")
     (by decide) rfl rfl rfl⟩

/-- Claim C2 counterexample: the section 8 chart written with its ids
exactly as in the claim — Root and Root/A without the scn scheme —
builds a Node, but instantiation then fails with InvalidNodeId("Root")
instead of succeeding with current_state addressing Root/A. -/
theorem chart_literal_ids_counterexample :
    (Node.try_from chartLiteral).bind (StateMachine.new "u1") =
      .error (.invalidNodeId ⟨"Root"⟩) := by
  rw [build_chartLiteral]
  rfl

/-- Claim C2 (amended): with the chart ids written as the scn URIs the
repository's chart files carry, the section 8 chart instantiates with
current_state addressing Root/A; the same chart without start-node fails
with NoRoot; and in general any built root with a valid id path,
children present and no start_node fails with NoRoot. -/
theorem chart_scn_ids_instantiation (node : Node) (uuid : String)
    (_hch : node.nodes ≠ []) (hsn : node.start_node = Option.none)
    (hid : ∃ p, node.id.path = .ok p) :
    ((Node.try_from chartScn).bind (StateMachine.new "u1")).map
        (fun m => m.current_state) = .ok ⟨"sms:///u1/Root/A"⟩ ∧
    (Node.try_from chartScnNoStart).bind (StateMachine.new "u1") = .error .noRoot ∧
    StateMachine.new uuid node = .error .noRoot := by
  refine ⟨?_, ?_, ?_⟩
  · rw [build_chartScn]
    rfl
  · rw [build_chartScnNoStart]
    rfl
  · obtain ⟨p, hp⟩ := hid
    unfold StateMachine.new StateId.new
    rw [hp, except_bind_ok, except_bind_ok, hsn]

/-- Witness for C2 (amended) at the built no-start chart, which has one
child and no start_node. -/
theorem chart_scn_ids_instantiation_witness :
    (rootScnNoStartNode.nodes ≠ [] ∧ rootScnNoStartNode.start_node = Option.none ∧
     rootScnNoStartNode.id.path = .ok "Root") ∧
    (((Node.try_from chartScn).bind (StateMachine.new "u1")).map
        (fun m => m.current_state) = .ok ⟨"sms:///u1/Root/A"⟩ ∧
     (Node.try_from chartScnNoStart).bind (StateMachine.new "u1") = .error .noRoot ∧
     StateMachine.new "u2" rootScnNoStartNode = .error .noRoot) :=
  ⟨⟨List.cons_ne_nil _ _, rfl, rfl⟩,
   chart_scn_ids_instantiation rootScnNoStartNode "u2" (List.cons_ne_nil _ _) rfl
     ⟨"Root", rfl⟩⟩

/-- Claim C3: dispatching an event scans the active node's transitions in
declared order and selects the first whose guard is Event(e) with e
equal to the dispatched id — whatever follows the match is irrelevant —
while no match leaves the machine untouched; in the two-transition
example (always-false predicate guard first, Event(go) second),
dispatching go selects the second transition and commits to its target
Root/B. -/
theorem send_first_match :
    (∀ (before after : List Transition) (t : Transition) (ev : EventId),
      (∀ u ∈ before, guardMatchesEvent u ev = false) →
      guardMatchesEvent t ev = true →
      selectTransition (before ++ t :: after) ev = some t) ∧
    (∀ (m : StateMachine) (active : Node) (ev : EventId),
      (∀ u ∈ active.out_transitions, guardMatchesEvent u ev = false) →
      sendEvent m active ev = .ok m) ∧
    selectTransition [tPred, tGo] "go" = some tGo ∧
    sendEvent machDemo activeDemo "go" =
      .ok { id := ⟨"sms:///u1/Root"⟩, state_chart := activeDemo,
            current_state := ⟨"sms:///u1/Root/B"⟩ } := by
  refine ⟨selectTransition_first, ?_, rfl, rfl⟩
  intro m active ev h
  unfold sendEvent
  rw [selectTransition_none _ _ h]

/-- Witness for C3: the first-match scan at the concrete two-transition
list, and the no-op dispatch of an unmatched event. -/
theorem send_first_match_witness :
    selectTransition ([tPred] ++ tGo :: []) "go" = some tGo ∧
    sendEvent machDemo activeDemo "nope" = .ok machDemo :=
  ⟨send_first_match.1 [tPred] [] tGo "go" (by decide) (by decide),
   send_first_match.2.1 machDemo activeDemo "nope" (by decide)⟩
